import Mathlib

/-!
Verification of the scan-orchestration pipeline of the AccessAuditPro
repository (an accessibility auditing web application).

The development shallowly embeds the TypeScript sources:

* `server/services/url-sanitizer.ts` — SSRF target validation (`sanitizeTarget`);
* `server/services/free-scanner.ts`  — the free/preview single-page scanner
  (violation sorting, per-violation evidence capture);
* `server/services/scanner.ts`       — the main scanner (`scanWebsite`, the
  fetch retry loop, markup sanitization, `generateReport`,
  `generateBasicReport`, test-fixture loading);
* the `/api/scans` and `/api/scan/free` route handlers — the scan
  orchestrator driving the Scan record's status transitions.

External effects (HTTP fetch, DNS, the headless browser, the axe-core rule
engine, PDF drawing, the clock) are passed in as explicit oracle values, so
every function here is pure and executable.  String lengths coincide with
JavaScript string lengths on the ASCII data used throughout.
-/

namespace AccessAudit

/-! ## JavaScript string primitives used by the sources -/

/-- Index of the first occurrence of `pat` as a contiguous block of `cs`. -/
def firstMatchIdx (pat : List Char) : List Char → Option Nat
  | [] => if pat.isEmpty then some 0 else none
  | c :: cs =>
    if pat.isPrefixOf (c :: cs) then some 0
    else (firstMatchIdx pat cs).map (· + 1)

/-- Model of JavaScript `String.prototype.includes`: substring containment. -/
def jsIncludes (s sub : String) : Bool :=
  (firstMatchIdx sub.data s.data).isSome

/-- Model of JavaScript `String.prototype.toLowerCase` on the ASCII data in play. -/
def jsToLower (s : String) : String :=
  String.mk (s.data.map Char.toLower)

/-- String length (JavaScript `.length`; the two coincide on the ASCII data
in play). -/
def strLen (s : String) : Nat :=
  s.data.length

/-- Model of `String.prototype.startsWith`. -/
def jsStartsWith (s p : String) : Bool :=
  p.data.isPrefixOf s.data

/-- Model of `String.prototype.substring(0, n)`. -/
def jsTake (s : String) (n : Nat) : String :=
  String.mk (s.data.take n)

/-- Dropping the first `n` characters. -/
def jsDrop (s : String) (n : Nat) : String :=
  String.mk (s.data.drop n)

/-- Model of `String.prototype.trim`. -/
def jsTrim (s : String) : String :=
  String.mk (((s.data.dropWhile Char.isWhitespace).reverse.dropWhile
    Char.isWhitespace).reverse)

/-- Splitting on a non-empty separator, fueled by the input length. -/
def splitOnFuel (sep : List Char) : Nat → List Char → List Char → List (List Char)
  | 0, rest, acc => [acc.reverse ++ rest]
  | _ + 1, [], acc => [acc.reverse]
  | fuel + 1, c :: cs, acc =>
    if sep.isPrefixOf (c :: cs) then
      acc.reverse :: splitOnFuel sep fuel ((c :: cs).drop sep.length) []
    else
      splitOnFuel sep fuel cs (c :: acc)

/-- Model of `String.prototype.split` / Lean's `String.splitOn` for a
non-empty separator. -/
def jsSplitOn (s sep : String) : List String :=
  (splitOnFuel sep.data s.data.length s.data []).map String.mk

/-- Joining with a separator. -/
def joinSep (sep : String) : List String → String
  | [] => ""
  | [x] => x
  | x :: xs => x ++ sep ++ joinSep sep xs

/-- Parsing a digit run as a decimal number. -/
def parseNatDigits (cs : List Char) : Option Nat :=
  if !cs.isEmpty && cs.all Char.isDigit then
    some (cs.foldl (fun n c => n * 10 + (c.toNat - 48)) 0)
  else none

/-- Model of `path.basename`: the final path component. -/
def jsBasename (p : String) : String :=
  (jsSplitOn p "/").getLastD p

/-- The `\x7b` character (used to model the JSON-shape sniff in the fetch loop
without writing brace characters in string literals). -/
def openBraceChar : Char := Char.ofNat 123

/-- The `\x7d` character. -/
def closeBraceChar : Char := Char.ofNat 125

/-! ## `server/services/url-sanitizer.ts` -/

/-- DNS as an oracle: `dns.resolve4` either yields a list of IPv4 address
strings or rejects (`none`). -/
def DnsOracle := String → Option (List String)

/-- The `172.16.0.0/12` second octets accepted by the source regex
`^172\.(1[6-9]|2[0-9]|3[0-1])\.`. -/
def rfc1918SecondOctets : List String :=
  ["16", "17", "18", "19", "20", "21", "22", "23", "24", "25",
   "26", "27", "28", "29", "30", "31"]

/-- `isPrivateIP` (url-sanitizer.ts lines 14-26): each disjunct translates one
regex of `PRIVATE_IP_RANGES` acting on the dotted-quad string.  Note the
multicast pattern of the source is literally `^224\.` (first octet `224`
only), although its comment announces `224.0.0.0/4`. -/
def isPrivateIP (ip : String) : Bool :=
  jsStartsWith ip "10." ||
  rfc1918SecondOctets.any (fun t => jsStartsWith ip ("172." ++ t ++ ".")) ||
  jsStartsWith ip "192.168." ||
  jsStartsWith ip "127." ||
  jsStartsWith ip "169.254." ||
  jsStartsWith ip "224." ||
  ip = "255.255.255.255"

/-- The regex `^(\d{1,3}\.){3}\d{1,3}$` deciding whether the hostname is a
literal IPv4 address: four dot-separated runs of one to three digits. -/
def looksLikeIPv4 (hostname : String) : Bool :=
  let parts := jsSplitOn hostname "."
  parts.length = 4 &&
    parts.all (fun p => 1 ≤ strLen p && strLen p ≤ 3 && p.data.all Char.isDigit)

/-- The `blockedDomains` keyword list of url-sanitizer.ts lines 87-94. -/
def blockedDomains : List String :=
  ["internal", "local", "localhost", "intranet", "corp", "home"]

/-- A parsed URL, with the fields of the WHATWG `URL` object the source reads. -/
structure UrlRec where
  protocol : String
  hostname : String
  host : String
  href : String
  origin : String
deriving DecidableEq, Repr

/-- Scheme shape accepted by the URL standard: a letter followed by
letters, digits, `+`, `-` or `.`. -/
def schemeOk (s : String) : Bool :=
  match s.data with
  | [] => false
  | c :: cs => c.isAlpha && cs.all (fun d => d.isAlphanum || d = '+' || d = '-' || d = '.')

/-- Model of Node's WHATWG `new URL(urlString)` for the plain absolute
`scheme://host[:port][/path]` URLs this pipeline constructs (no userinfo,
no IPv6 brackets, ASCII hosts).  Scheme and authority are lowercased and a
pathless URL gains the `/` the real parser adds to `href`. -/
def parseURL (s : String) : Option UrlRec :=
  match jsSplitOn s "://" with
  | [] => none
  | [_] => none
  | scheme :: restHead :: restTail =>
    let after := joinSep "://" (restHead :: restTail)
    if !(schemeOk scheme) then none
    else
      let schemeL := jsToLower scheme
      let authChars := after.data.takeWhile (fun c => c != '/' && c != '?' && c != '#')
      let pathChars := after.data.drop authChars.length
      let host := jsToLower (String.mk authChars)
      let hostname := String.mk (host.data.takeWhile (fun c => c != ':'))
      if hostname = "" then none
      else
        let origin := schemeL ++ "://" ++ host
        some { protocol := schemeL ++ ":"
               hostname := hostname
               host := host
               href := origin ++ (if pathChars.isEmpty then "/" else String.mk pathChars)
               origin := origin }

/-- The sanitized output record of `sanitizeTarget` (url-sanitizer.ts 102-107). -/
structure SanitizedTarget where
  href : String
  origin : String
  host : String
deriving DecidableEq, Repr

/-- Input normalization of url-sanitizer.ts lines 34-38: trim, then prepend
`https://` unless the regex `/^https?:\/\//i` matches. -/
def normalizeInput (input : String) : String :=
  let t := jsTrim input
  let lowered := jsToLower t
  if jsStartsWith lowered "http://" || jsStartsWith lowered "https://" then t
  else "https://" ++ t

/-- The host-level checks of `sanitizeTarget` (url-sanitizer.ts lines 47-107),
applied to a parsed URL.  The throw raised when a resolved address is private
(line 78) is swallowed by the surrounding `catch` (line 81) and re-raised as
the DNS-failure message, which this model reproduces. -/
def hostPhase (dns : DnsOracle) (u : UrlRec) : Except String SanitizedTarget :=
  if u.protocol != "https:" then .error "Only HTTPS URLs are allowed"
  else if jsToLower u.hostname = "localhost" || jsToLower u.hostname = "0.0.0.0" then
    .error "Localhost access is not allowed"
  else if jsToLower u.hostname = "::1" || jsToLower u.hostname = "[::1]" then
    .error "IPv6 localhost access is not allowed"
  else if looksLikeIPv4 (jsToLower u.hostname) && isPrivateIP (jsToLower u.hostname) then
    .error "Private IP addresses are not allowed"
  else
    match dns (jsToLower u.hostname) with
    | none => .error "Unable to resolve domain name"
    | some ips =>
      if ips.any isPrivateIP then
        .error "Unable to resolve domain name"
      else if blockedDomains.any (fun b => jsIncludes (jsToLower u.hostname) b) then
        .error "Internal domain names are not allowed"
      else
        .ok { href := u.href, origin := u.origin, host := u.host }

/-- `sanitizeTarget` (url-sanitizer.ts lines 28-108): input validation,
normalization, URL parsing, then the host checks.  An empty input models the
falsy-input guard of line 30. -/
def sanitizeTarget (dns : DnsOracle) (input : String) : Except String SanitizedTarget :=
  if input = "" then .error "Invalid URL input"
  else
    match parseURL (normalizeInput input) with
    | none => .error "Invalid URL format"
    | some u => hostPhase dns u

/-- The IPv4 multicast range `224.0.0.0/4` named both by the specification and
by the source comment on the multicast pattern: first octet 224 through 239.
Stated from the spec to exhibit the divergence from `isPrivateIP`. -/
def isMulticastIPv4 (ip : String) : Bool :=
  match (jsSplitOn ip ".").head? with
  | none => false
  | some o => match parseNatDigits o.data with
    | none => false
    | some n => 224 ≤ n && n ≤ 239

/-! ## Data model: axe-core results -/

/-- One affected node of a violation, with the fields the pipeline reads:
`target` (the CSS selector path array, possibly absent) and `html`. -/
structure NodeRec where
  target : Option (List String)
  html : Option String
deriving DecidableEq, Repr

/-- An axe-core rule result, restricted to the fields the modeled logic
reads (`id`, `description`, `impact`, `nodes`); `impact` may be absent.
The remaining axe fields (`help`, `helpUrl`, `tags`) only flow into the
abstracted PDF drawing and are omitted. -/
structure Violation where
  id : String
  description : String
  impact : Option String
  nodes : List NodeRec
deriving DecidableEq, Repr

/-- A node without targets. -/
def mkNodeHtml (h : String) : NodeRec :=
  { target := none, html := some h }

/-- Violation constructor helper for the literals appearing in the sources. -/
def mkViolation (id description : String) (impact : Option String)
    (nodes : List NodeRec) : Violation :=
  { id := id, description := description, impact := impact, nodes := nodes }

/-! ## `server/services/free-scanner.ts` -/

/-- `impactOrder` (free-scanner.ts line 151). -/
def impactOrder : List String :=
  ["critical", "serious", "moderate", "minor"]

/-- The sort key of the comparator at free-scanner.ts lines 152-156:
`impactOrder.indexOf(impact)` with `-1` replaced by `999`; a missing
`impact` also yields `-1` hence `999`. -/
def impactRank (v : Violation) : Nat :=
  match v.impact with
  | none => 999
  | some s =>
    match impactOrder.indexOf? s with
    | none => 999
    | some i => i

/-- The order induced by the comparator `(aIndex - bIndex)`: smaller rank
first. -/
def impactLE (a b : Violation) : Prop :=
  impactRank a ≤ impactRank b

instance : DecidableRel impactLE :=
  fun a b => Nat.decLe (impactRank a) (impactRank b)

instance : IsTotal Violation impactLE := ⟨fun _ _ => Nat.le_total _ _⟩

instance : IsTrans Violation impactLE := ⟨fun _ _ _ => Nat.le_trans⟩

/-- Model of `axeResults.violations.sort(comparator)` (free-scanner.ts lines
150-156): `Array.prototype.sort` is a stable sort by the comparator, i.e. a
stable sort placing smaller `impactRank` first — `critical` before `serious`
before `moderate` before `minor` before unknown. -/
def sortViolationsByImpact (l : List Violation) : List Violation :=
  List.insertionSort impactLE l

/-- Decidable statement of the claimed output ordering: adjacent ranks are
non-decreasing, i.e. impact severity is non-increasing with unknown last. -/
def sortedByImpactB : List Violation → Bool
  | [] => true
  | [_] => true
  | a :: b :: t => decide (impactRank a ≤ impactRank b) && sortedByImpactB (b :: t)

/-- `violation.nodes?.[0]?.target?.[0]` (free-scanner.ts line 170). -/
def firstSelector (v : Violation) : Option String :=
  match v.nodes with
  | [] => none
  | n :: _ =>
    match n.target with
    | none => none
    | some [] => none
    | some (s :: _) => some s

/-- One captured evidence entry (the `shots` array elements of
free-scanner.ts): rule id, selector, and the screenshot when one was taken. -/
structure Shot where
  ruleId : String
  sel : String
  b64 : Option String
deriving DecidableEq, Repr

/-- The per-violation screenshot attempt as an oracle, keyed by the selector:
`.ok none` models a null element handle or a degenerate bounding box,
`.ok (some b)` a captured image, `.error` a thrown screenshot failure. -/
def ShotOracle := String → Except String (Option String)

/-- The evidence-capture loop of free-scanner.ts lines 167-201.  A violation
without a first-node selector is skipped (no entry is pushed); with a
selector, exactly one entry is pushed, and a thrown per-violation failure is
caught locally and recorded with `b64 := none`. -/
def captureShotsForFree (attempt : ShotOracle) : List Violation → List Shot
  | [] => []
  | v :: vs =>
    match firstSelector v with
    | none => captureShotsForFree attempt vs
    | some sel =>
      let b64 :=
        match attempt sel with
        | .ok b => b
        | .error _ => none
      { ruleId := v.id, sel := sel, b64 := b64 } :: captureShotsForFree attempt vs

/-- The result record of the free scanner (interface `LimitedScanResult`). -/
structure LimitedScanResultR where
  violations : List Violation
  fullB64 : String
  shots : List Shot
  url : String
  scanDateTime : String
  error : Option String
deriving DecidableEq, Repr

/-- External effects of one free-scan run: `pipeline` bundles browser launch,
navigation, the first screenshot and the axe run (all awaited inside one
`try`, any rejection reaching the same `catch`); `attempt` is the
per-violation screenshot; `fullShot` the full-page screenshot of line 163;
`closeFails` a `browser.close()` rejection at line 206. -/
structure FreeEffects where
  pipeline : Except String (List Violation)
  attempt : ShotOracle
  fullShot : String
  closeFails : Option String
  now : String

/-- The catch-all degraded result of free-scanner.ts lines 224-231. -/
def freeErrorResult (url now msg : String) : LimitedScanResultR :=
  { violations := [], fullB64 := "", shots := [], url := url,
    scanDateTime := now, error := some msg }

/-- `scanSinglePageForFree` (free-scanner.ts lines 81-233): on success the
violations are sorted by impact, sliced to exactly 2, and per-violation
evidence is captured; any rejection inside the `try` (including a failing
`browser.close()`) yields the degraded error result. -/
def scanSinglePageForFreeModel (eff : FreeEffects) (url : String) : LimitedScanResultR :=
  match eff.pipeline with
  | .error msg => freeErrorResult url eff.now msg
  | .ok axeViolations =>
    let selected := (sortViolationsByImpact axeViolations).take 2
    let shots := captureShotsForFree eff.attempt selected
    match eff.closeFails with
    | some msg => freeErrorResult url eff.now msg
    | none =>
      { violations := selected, fullB64 := eff.fullShot, shots := shots,
        url := url, scanDateTime := eff.now, error := none }

/-! ## `server/services/scanner.ts` — data and effect types -/

/-- The result record produced by `scanWebsite`/`scanTestPage` (interface
`ScanResult`, scanner.ts lines 86-95); absent optional fields are `none`. -/
structure ScanResultR where
  violations : List Violation
  passes : List Violation
  incomplete : List Violation
  screenshot : Option String
  violationScreenshots : List (String × String)
  error : Option String
  scanDateTime : Option String
  url : Option String
deriving DecidableEq, Repr

/-- One HTTP fetch outcome: a response (status, status text, body) or a
thrown network error (timeout, DNS, connection reset, ...). -/
inductive FetchOutcome where
  | response (status : Nat) (statusText : String) (body : String)
  | netError (msg : String)
deriving DecidableEq, Repr

/-- `response.ok`: status in the 200-299 range. -/
def responseOk (status : Nat) : Bool :=
  200 ≤ status && status ≤ 299

/-- Outcome of the two JSDOM constructions (primary at scanner.ts line 592,
minimal fallback at line 609).  A missing `document.body` (line 600) throws
into the same catch as a construction failure and is covered by the first
message. -/
inductive DomOutcome where
  | ok
  | primaryFailsFallbackOk (msg : String)
  | bothFail (msg : String)
deriving DecidableEq, Repr

/-- Outcome of an `axe.run` invocation. -/
inductive AxeOutcome where
  | results (violations passes incomplete : List Violation)
  | engineError (msg : String)
deriving DecidableEq, Repr

/-- External effects of one `scanWebsite` run.  `fetch` is indexed by the
attempt counter (the rotating User-Agent headers and the cache-busting query
parameter are part of the request the oracle answers); `jsonError` is the
result of the `JSON.parse` error-extraction attempted when a response does
not look like HTML (some message when parsing succeeded and an `error`
property was found). -/
structure ScanEffects where
  fetch : Nat → FetchOutcome
  jsonError : Nat → Option String
  dom : DomOutcome
  axe : AxeOutcome
  axeTest : AxeOutcome
  screenshot : Option String
  violationShots : List (String × String)
  now : String

/-! ## The fetch retry loop (scanner.ts lines 457-568) -/

/-- One fetch attempt (the body of the `try` at scanner.ts lines 464-552):
non-2xx handling (403 with a large body accepted, 429 and other statuses
thrown), the empty-body check, and the does-not-look-like-HTML checks with
the JSON sniff.  `.ok` means the loop breaks with usable content, `.error`
is a thrown message the retry logic catches. -/
def attemptFetch (out : FetchOutcome) (jsonErr : Option String) : Except String String :=
  match out with
  | .netError msg => .error msg
  | .response status statusText body =>
    if !(responseOk status) then
      if status = 403 then
        if strLen body > 1000 then .ok body
        else .error "Access forbidden (403) - The website may be blocking our requests"
      else if status = 429 then
        .error "Rate limited (429) - Too many requests to the website"
      else
        .error ("HTTP error! Status: " ++ toString status ++ " " ++ statusText)
    else if strLen body > 0 then
      if !(jsIncludes body "<html") && !(jsIncludes body "<body") then
        let preview := jsTake body 200
        if preview.data.contains openBraceChar && preview.data.contains closeBraceChar then
          match jsonErr with
          | some e => .error ("API error: " ++ e)
          | none =>
            if strLen body > 5000 then .ok body
            else .error "Received response does not appear to be HTML"
        else
          if strLen body > 5000 then .ok body
          else .error "Received response does not appear to be HTML"
      else .ok body
    else .error "Received empty response"

/-- The `while (fetchAttempts < maxFetchAttempts)` loop with
`maxFetchAttempts = 5`: the counter increases only on a failed attempt, and
exhaustion throws the aggregated message of line 560.  Fuel is the number of
remaining attempts, so the top-level call uses fuel 5 and zero attempts. -/
def fetchRetryLoop (eff : ScanEffects) (url : String) : Nat → Nat → Except String String
  | 0, _ => .error ("Failed to fetch " ++ url ++ " after 5 attempts: ")
  | fuel + 1, attempts =>
    match attemptFetch (eff.fetch attempts) (eff.jsonError attempts) with
    | .ok body => .ok body
    | .error msg =>
      if attempts + 1 ≥ 5 then
        .error ("Failed to fetch " ++ url ++ " after 5 attempts: " ++ msg)
      else
        fetchRetryLoop eff url fuel (attempts + 1)

/-! ## Markup sanitization before DOM construction (scanner.ts lines 576-597) -/

/-- A word character for the `\b` boundary of the script/iframe regexes. -/
def isWordChar (c : Char) : Bool :=
  c.isAlphanum || c = '_'

/-- Index of the first case-insensitive occurrence of `<tag` followed by a
word boundary, scanning a pre-lowercased character list. -/
def findOpenIdx (tagL : List Char) : List Char → Option Nat
  | [] => none
  | c :: cs =>
    if ('<' :: tagL).isPrefixOf (c :: cs)
        && (match (c :: cs).drop (tagL.length + 1) with
            | [] => true
            | d :: _ => !(isWordChar d)) then
      some 0
    else (findOpenIdx tagL cs).map (· + 1)

/-- Remove one `<tag ...>...</tag>` block (the match of
`/<tag\b[^<]*(?:(?!<\/tag>)<[^<]*)*<\/tag>/i`: from the opening token to the
first subsequent closing tag); `none` when no complete block remains. -/
def removeTagBlockOnce (tag : String) (cs : List Char) : Option (List Char) :=
  let low := cs.map Char.toLower
  match findOpenIdx tag.data low with
  | none => none
  | some i =>
    let closeTok := '<' :: '/' :: tag.data ++ ['>']
    match firstMatchIdx closeTok (low.drop (i + 1)) with
    | none => none
    | some k =>
      some (cs.take i ++ cs.drop (i + 1 + k + (strLen tag + 3)))

/-- Global removal of `<tag>...</tag>` blocks (the `g` flag), fueled by the
input length. -/
def removeTagBlocks (tag : String) : Nat → List Char → List Char
  | 0, cs => cs
  | fuel + 1, cs =>
    match removeTagBlockOnce tag cs with
    | none => cs
    | some cs2 => removeTagBlocks tag fuel cs2

/-- Remove one match of `/<link[^>]*>/i`: from `<link` to the next `>`. -/
def removeLinkTagOnce (cs : List Char) : Option (List Char) :=
  let low := cs.map Char.toLower
  match firstMatchIdx "<link".data low with
  | none => none
  | some i =>
    match firstMatchIdx ['>'] (low.drop (i + 5)) with
    | none => none
    | some k => some (cs.take i ++ cs.drop (i + 5 + k + 1))

/-- Global removal of `<link ...>` tags. -/
def removeLinkTags : Nat → List Char → List Char
  | 0, cs => cs
  | fuel + 1, cs =>
    match removeLinkTagOnce cs with
    | none => cs
    | some cs2 => removeLinkTags fuel cs2

/-- The three chained regex replaces of scanner.ts lines 580-583: script
blocks, then iframe blocks, then link tags, each global and
case-insensitive. -/
def stripScriptIframeLink (s : String) : String :=
  let cs1 := removeTagBlocks "script" (strLen s + 1) s.data
  let cs2 := removeTagBlocks "iframe" (cs1.length + 1) cs1
  String.mk (removeLinkTags (cs2.length + 1) cs2)

/-- The guard of scanner.ts line 577: sanitization runs only when the body
contains a literal `<script` or `<iframe` token (case-sensitively, although
the replaces themselves are case-insensitive). -/
def appliesSanitization (htmlContent : String) : Bool :=
  jsIncludes htmlContent "<script" || jsIncludes htmlContent "<iframe"

/-- The markup handed onward after the conditional sanitization. -/
def processedHtml (htmlContent : String) : String :=
  if appliesSanitization htmlContent then stripScriptIframeLink htmlContent
  else htmlContent

/-- The wrapper added at scanner.ts line 589 when no `<html` token remains. -/
def htmlWrapper (content : String) : String :=
  "<!DOCTYPE html><html><head><title>Scanned Page</title></head><body>"
    ++ content ++ "</body></html>"

/-- The exact markup string passed to the JSDOM constructor at scanner.ts
line 592 (after conditional sanitization and conditional wrapping). -/
def domInputHtml (htmlContent : String) : String :=
  let p := processedHtml htmlContent
  if !(jsIncludes p "<html") then htmlWrapper p else p

/-- The `runScripts` JSDOM option. -/
inductive RunScriptsOpt where
  | outsideOnly
  | dangerously
deriving DecidableEq, Repr

/-- The JSDOM options the source passes. -/
structure DomOptions where
  url : String
  runScripts : RunScriptsOpt
  resourcesUsable : Bool
  pretendToBeVisual : Bool
deriving DecidableEq, Repr

/-- Options of the primary JSDOM construction (scanner.ts lines 592-597):
scripts are never executed (`runScripts: "outside-only"`). -/
def scanDomOptions (url : String) : DomOptions :=
  { url := url, runScripts := .outsideOnly,
    resourcesUsable := true, pretendToBeVisual := true }

/-- Options of the fallback minimal JSDOM construction (scanner.ts lines
609-614): also `runScripts: "outside-only"`. -/
def fallbackDomOptions (url : String) : DomOptions :=
  { url := url, runScripts := .outsideOnly,
    resourcesUsable := false, pretendToBeVisual := false }

/-- DOM construction with its fallback (scanner.ts lines 574-620): a primary
failure falls back to the minimal DOM, and only a double failure throws the
parse error composed from the first failure's message. -/
def domConstruction (_opts : DomOptions) : DomOutcome → Except String Unit
  | .ok => .ok ()
  | .primaryFailsFallbackOk _ => .ok ()
  | .bothFail msg => .error ("Failed to parse website HTML: " ++ msg)

/-! ## Test-fixture loading (scanner.ts lines 16-84, 440-448) -/

/-- The bundled test pages present in the repository's
`server/test-pages/` directory: `index.html` and `accessible.html` only
(there is no `sample.html`). -/
def testPageExists (fullPath : String) : Bool :=
  fullPath = "server/test-pages/index.html"
    || fullPath = "server/test-pages/accessible.html"

/-- Node's error message for reading a missing file (the failure
`fs/promises.readFile` reports for an absent fixture). -/
def enoentMsg (p : String) : String :=
  "ENOENT: no such file or directory, open " ++ p

/-- The static placeholder screenshot of scanner.ts line 66 (a fixed base64
PNG data URL; the literal is abbreviated, its value is never inspected). -/
def testScreenshotDataUrl : String :=
  "data:image/png;base64,iVBORw0KGgoAAAANSUhEUgAAASwAAAEsCAIAAAD2HxkiAAAA"

/-- `scanTestPage` (scanner.ts lines 16-84): resolves the fixture under
`server/`, reads it (a missing file throws the wrapped ENOENT message via the
catch at line 80), then runs axe.  An axe failure rejects the returned
promise with the unwrapped engine message, because `return new Promise(...)`
inside `try` does not route the rejection through the catch. -/
def scanTestPageModel (eff : ScanEffects) (testPagePath : String) :
    Except String ScanResultR :=
  let rel := if jsStartsWith testPagePath "/" then jsDrop testPagePath 1 else testPagePath
  let fullPath := "server/" ++ rel
  if testPageExists fullPath then
    match eff.axeTest with
    | .engineError msg => .error ("Failed to run accessibility scan: " ++ msg)
    | .results vs ps inc =>
      .ok { violations := vs, passes := ps, incomplete := inc,
            screenshot := some testScreenshotDataUrl, violationScreenshots := [],
            error := none, scanDateTime := none, url := none }
  else
    .error ("Test page scan failed: " ++ enoentMsg fullPath)

/-! ## `scanWebsite` (scanner.ts lines 438-729) -/

/-- `scanWebsite`: fixture dispatch by exact string equality, protocol
normalization, the fetch retry loop, conditional markup sanitization, DOM
construction with fallback, then the axe run.  An axe rejection is caught at
line 702 and turned into a degraded result carrying `error` (the scan does
not throw); fetch exhaustion and double DOM failure throw, wrapped by the
outer catch at line 725.  Fixture errors pass through unwrapped (the `return
scanTestPage(...)` inside `try` skips the catch). -/
def scanWebsiteModel (eff : ScanEffects) (url : String) : Except String ScanResultR :=
  if url = "test-sample" || url = "test" then
    scanTestPageModel eff "/test-pages/sample.html"
  else if url = "test-accessible" then
    scanTestPageModel eff "/test-pages/accessible.html"
  else
    let url1 :=
      if jsStartsWith url "http://" || jsStartsWith url "https://" then url
      else "https://" ++ url
    match fetchRetryLoop eff url1 5 0 with
    | .error msg => .error ("Accessibility scan failed: " ++ msg)
    | .ok htmlContent =>
      let _domInput := domInputHtml htmlContent
      match domConstruction (scanDomOptions url1) eff.dom with
      | .error msg => .error ("Accessibility scan failed: " ++ msg)
      | .ok _ =>
        match eff.axe with
        | .engineError msg =>
          .ok { violations := [], passes := [], incomplete := [],
                screenshot := none, violationScreenshots := [],
                error := some ("Failed to run accessibility scan: " ++ msg),
                scanDateTime := some eff.now, url := some url1 }
        | .results vs ps inc =>
          .ok { violations := vs, passes := ps, incomplete := inc,
                screenshot := eff.screenshot,
                violationScreenshots := eff.violationShots,
                error := none, scanDateTime := some eff.now, url := some url1 }

/-! ## Report generation (scanner.ts lines 98-198 and 731-1249) -/

/-- PDF rendering effects: the outcome of the full-report drawing/write and
of the basic-report drawing/write, each resolving with the file path. -/
structure RenderOracle where
  full : Except String String
  basic : Except String String

/-- `generateBasicReport` (scanner.ts lines 98-198): pure PDF drawing and
file writing, abstracted into the `basic` render effect; resolves with the
`basic_report_<timestamp>.pdf` path. -/
def generateBasicReportModel (render : RenderOracle) : Except String String :=
  render.basic

/-- `generateReport` (scanner.ts lines 731-1249).  The missing-fields guard
of line 733 cannot fire for the results the routes construct (violation and
pass arrays are always present).  When `results.error` is set, the error
branch of the executive summary ends in a bare `return;` (line 962): the
promise resolves with `undefined` — modeled as `.ok none` — without
`doc.end()` ever running.  Otherwise the full drawing/write runs, abstracted
by the `full` render effect. -/
def generateReportModel (render : RenderOracle) (_url : String)
    (results : ScanResultR) : Except String (Option String) :=
  if results.error.isSome then
    .ok none
  else
    match render.full with
    | .ok p => .ok (some p)
    | .error e => .error e

/-! ## The `/api/scans` background task (part_006 lines 162-263) -/

/-- The persisted Scan status values. -/
inductive ScanStatus where
  | pending
  | completed
  | failed
deriving DecidableEq, Repr

/-- The canned substitute results built for test pages when the scan throws
(part_006 lines 197-208). -/
def cannedTestResults : ScanResultR :=
  { violations :=
      [ mkViolation "image-alt" "Images must have alternate text"
          (some "critical") [mkNodeHtml "<img src=\"test.jpg\">"],
        mkViolation "color-contrast" "Elements must have sufficient color contrast"
          (some "serious") [mkNodeHtml "<p style=\"color: #aaa\">Test</p>"] ],
    passes :=
      [ mkViolation "document-title" "Documents must have a title"
          (some "moderate") [mkNodeHtml "<title>Test</title>"],
        mkViolation "html-lang" "HTML element must have a lang attribute"
          (some "serious") [mkNodeHtml "<html lang=\"en\">"] ],
    incomplete := [], screenshot := none, violationScreenshots := [],
    error := none, scanDateTime := none, url := none }

/-- The synthetic error results built for real external sites when the scan
throws (part_006 lines 215-222). -/
def syntheticErrorResults (url now msg : String) : ScanResultR :=
  { violations := [], passes := [], incomplete := [],
    screenshot := none, violationScreenshots := [],
    error := some ("Failed to scan website: " ++ msg),
    scanDateTime := some now, url := some url }

/-- The test-URL sentinel check of part_006 line 182: exact membership of
`data.url` in `['test', 'test-sample', 'test-accessible']`. -/
def isTestUrl (url : String) : Bool :=
  (["test", "test-sample", "test-accessible"]).contains url

/-- What the background task recorded by the time it finished. -/
structure ProcessTrace where
  status : ScanStatus
  reportUrl : Option String
  resultsUsed : ScanResultR
  fullSucceeded : Bool
  basicAttempted : Bool
deriving DecidableEq, Repr

/-- The report-failure catch of part_006 lines 238-256: only test pages try
the basic report; a real external site goes straight to `failed`, and a
failing basic attempt also ends in `failed`. -/
def reportFailureTrace (isTestPage : Bool) (render : RenderOracle)
    (results : ScanResultR) : ProcessTrace :=
  if isTestPage then
    match generateBasicReportModel render with
    | .ok p =>
      { status := .completed, reportUrl := some ("/reports/" ++ jsBasename p),
        resultsUsed := results, fullSucceeded := false, basicAttempted := true }
    | .error _ =>
      { status := .failed, reportUrl := none,
        resultsUsed := results, fullSucceeded := false, basicAttempted := true }
  else
    { status := .failed, reportUrl := none,
      resultsUsed := results, fullSucceeded := false, basicAttempted := false }

/-- The results the background task carries into report generation (part_006
lines 178-226): the scan outcome itself, or — when `scanWebsite` threw — the
canned substitute for test pages and the synthetic error results for real
external sites. -/
def resultsFor (url now : String) : Except String ScanResultR → ScanResultR
  | .ok r => r
  | .error msg =>
    if isTestUrl url then cannedTestResults else syntheticErrorResults url now msg

/-- The report phase of part_006 lines 229-256, given what `generateReport`
resolved or threw.  A resolved defined path completes the scan with its
`/reports/...` URL; a resolved `undefined` path makes
`path.basename(reportPath)` throw, so it reaches the same report-failure
catch as a `generateReport` rejection. -/
def afterReport (isTestPage : Bool) (render : RenderOracle)
    (results : ScanResultR) : Except String (Option String) → ProcessTrace
  | .ok (some p) =>
    { status := .completed, reportUrl := some ("/reports/" ++ jsBasename p),
      resultsUsed := results, fullSucceeded := true, basicAttempted := false }
  | .ok none => reportFailureTrace isTestPage render results
  | .error _ => reportFailureTrace isTestPage render results

/-- The asynchronous body of `POST /api/scans` (part_006 lines 173-263),
given the outcome of `scanWebsite(data.url)`.  Persistence
(`storage.updateScanStatus`) is modeled as reliable, so the trace status is
the status written to the Scan record. -/
def processScanModel (url : String) (scanOutcome : Except String ScanResultR)
    (render : RenderOracle) (now : String) : ProcessTrace :=
  afterReport (isTestUrl url) render (resultsFor url now scanOutcome)
    (generateReportModel render url (resultsFor url now scanOutcome))

/-- The `/api/scans` background task composed with the scanner, as the route
wires them: `scanWebsite(data.url)` feeding the report/status logic. -/
def scansRouteBackground (eff : ScanEffects) (render : RenderOracle)
    (now url : String) : ProcessTrace :=
  processScanModel url (scanWebsiteModel eff url) render now

/-- The earlier `/api/scans` background task of `server/routes.ts` lines
29-51: no substitution and no fallback — any rejection (scan or report)
lands in the single catch and marks the scan `failed`; only a defined
resolved report path completes it. -/
def processScanStatusV0 (url : String) (scanOutcome : Except String ScanResultR)
    (render : RenderOracle) : ScanStatus :=
  match scanOutcome with
  | .error _ => .failed
  | .ok r =>
    match generateReportModel render url r with
    | .ok (some _) => .completed
    | .ok none => .failed
    | .error _ => .failed

/-! ## The `POST /api/scan/free` handler (part_006 lines 104-160) -/

/-- The free-scan handler from its sanitization step onward (the zod input
validation precedes; modeled for a well-formed request body).  The returned
flag records whether the background scan was started: a sanitizer rejection
is answered synchronously and no page load is ever attempted. -/
def freeScanHandlerModel (dns : DnsOracle) (domainOrUrl : String) :
    Except String String × Bool :=
  match sanitizeTarget dns domainOrUrl with
  | .error e => (.error e, false)
  | .ok t => (.ok t.href, true)

/-! ## Concrete oracle instantiations used by the evaluation theorems -/

/-- A DNS oracle resolving every name to a public address. -/
def dnsPublic : DnsOracle := fun _ => some ["93.184.216.34"]

/-- A DNS oracle under which the public-looking name `public-site.com`
resolves to the multicast address `239.1.2.3` (a DNS-rebinding scenario). -/
def dnsMulticast : DnsOracle :=
  fun h => if h = "public-site.com" then some ["239.1.2.3"] else none

/-- A fixed timestamp string. -/
def nowStr : String := "2026-01-01T00:00:00.000Z"

/-- Effects of a scan whose every fetch attempt times out; everything else
(DOM, rule engine, screenshots) is healthy. -/
def effTimeoutAll : ScanEffects :=
  { fetch := fun _ => .netError "network timeout at example.com",
    jsonError := fun _ => none, dom := .ok,
    axe := .results [] [] [], axeTest := .results [] [] [],
    screenshot := none, violationShots := [], now := nowStr }

/-- A healthy PDF renderer. -/
def renderHealthy : RenderOracle :=
  { full := .ok "reports/scan_1700000000000.pdf",
    basic := .ok "reports/basic_report_1700000000000.pdf" }

/-- A renderer whose full-report drawing throws but whose basic report works. -/
def renderFullFail : RenderOracle :=
  { full := .error "PDF generation failed",
    basic := .ok "reports/basic_report_1700000000001.pdf" }

/-- Effects of a successful scan of the private address, answering the fetch
with an HTML page. -/
def effPrivOk : ScanEffects :=
  { fetch := fun _ => .response 200 "OK" "<html><body><h1>router admin</h1></body></html>",
    jsonError := fun _ => none, dom := .ok,
    axe := .results [] [] [], axeTest := .results [] [] [],
    screenshot := none, violationShots := [], now := nowStr }

/-- Effects of the same scan when the private address does not answer. -/
def effPrivTimeout : ScanEffects :=
  { fetch := fun _ => .netError "connect ETIMEDOUT 10.0.0.5:443",
    jsonError := fun _ => none, dom := .ok,
    axe := .results [] [] [], axeTest := .results [] [] [],
    screenshot := none, violationShots := [], now := nowStr }

/-- A minor-impact violation followed by a critical one, as the rule engine
may deliver them. -/
def vMinorFirst : Violation :=
  mkViolation "region" "All page content should be contained by landmarks"
    (some "minor") [mkNodeHtml "<div>stray</div>"]

/-- The critical violation delivered after the minor one. -/
def vCriticalSecond : Violation :=
  mkViolation "image-alt" "Images must have alternate text"
    (some "critical") [mkNodeHtml "<img src=\"x.jpg\">"]

/-- Effects of a successful scan whose rule engine reports the minor
violation before the critical one. -/
def effUnsorted : ScanEffects :=
  { fetch := fun _ => .response 200 "OK" "<html><body><p>x</p></body></html>",
    jsonError := fun _ => none, dom := .ok,
    axe := .results [vMinorFirst, vCriticalSecond] [] [],
    axeTest := .results [] [] [],
    screenshot := none, violationShots := [], now := nowStr }

/-- A violation with no nodes, hence no resolvable first selector. -/
def vNoSelector : Violation :=
  mkViolation "image-alt" "Images must have alternate text" (some "critical") []

/-- Free-scan effects whose rule engine reports one selectorless violation
and whose screenshot machinery is healthy. -/
def effFreeNoSelector : FreeEffects :=
  { pipeline := .ok [vNoSelector],
    attempt := fun _ => .ok (some "iVBORw0KGgo"),
    fullShot := "iVBORw0KGgo", closeFails := none, now := nowStr }

/-- A successfully scanned external-site result with no degradation. -/
def plainResults : ScanResultR :=
  { violations := [], passes := [], incomplete := [],
    screenshot := none, violationScreenshots := [],
    error := none, scanDateTime := some nowStr,
    url := some "https://site-a.example" }

/-- The parsed form of the normalized input `homedepot.com`. -/
def homeDepotU : UrlRec :=
  { protocol := "https:", hostname := "homedepot.com", host := "homedepot.com",
    href := "https://homedepot.com/", origin := "https://homedepot.com" }

/-- A renderer whose full-report drawing throws on the cover page but whose
basic report works. -/
def renderBasicOnly : RenderOracle :=
  { full := .error "cover page crash",
    basic := .ok "reports/basic_report_1700000000002.pdf" }

/-- Fully healthy effects (responsive fetch, working DOM and rule engine),
used to show the fixture load failing on its own. -/
def effFixture : ScanEffects :=
  { fetch := fun _ => .response 200 "OK" "<html><body>ok</body></html>",
    jsonError := fun _ => none, dom := .ok,
    axe := .results [] [] [], axeTest := .results [] [] [],
    screenshot := none, violationShots := [], now := nowStr }

/-- A plain fetched page without scripts, iframes or links. -/
def plainBody : String :=
  "<html><body><p>plain</p></body></html>"

/-- A fetched body that carries a stylesheet link but no script or iframe. -/
def linkOnlyBody : String :=
  "<html><head><link rel=\"stylesheet\" href=\"theme.css\"></head><body><p>hi</p></body></html>"

/-! ## Helper lemmas -/

theorem sortedByImpactB_of_pairwise :
    ∀ l : List Violation, l.Pairwise impactLE → sortedByImpactB l = true := by
  intro l h
  induction l with
  | nil => rfl
  | cons a t ih =>
    match t, h with
    | [], _ => rfl
    | b :: t2, h =>
      have hab : impactLE a b := (List.pairwise_cons.mp h).1 b (by simp)
      have ht : (b :: t2).Pairwise impactLE := (List.pairwise_cons.mp h).2
      simp only [sortedByImpactB]
      rw [Bool.and_eq_true]
      exact And.intro (decide_eq_true hab) (ih ht)

theorem sortViolationsByImpact_pairwise (l : List Violation) :
    (sortViolationsByImpact l).Pairwise impactLE :=
  List.sorted_insertionSort impactLE l

theorem sortViolationsByImpact_perm (l : List Violation) :
    (sortViolationsByImpact l).Perm l :=
  List.perm_insertionSort impactLE l

theorem captureShotsForFree_length (attempt : ShotOracle) :
    ∀ l : List Violation,
      (captureShotsForFree attempt l).length
        = l.countP (fun v => (firstSelector v).isSome) := by
  intro l
  induction l with
  | nil => rfl
  | cons v vs ih =>
    simp only [captureShotsForFree]
    cases h : firstSelector v with
    | none => simp [List.countP_cons, h, ih]
    | some sel => simp [List.countP_cons, h, ih]

theorem reportFailureTrace_basicAttempted (b : Bool) (render : RenderOracle)
    (res : ScanResultR) : (reportFailureTrace b render res).basicAttempted = b := by
  cases b <;> cases hB : render.basic <;>
    simp [reportFailureTrace, generateBasicReportModel, hB]

theorem reportFailureTrace_status (b : Bool) (render : RenderOracle)
    (res : ScanResultR) :
    ((reportFailureTrace b render res).status = ScanStatus.failed
      ↔ (b = true → render.basic.isOk = false)) := by
  cases b <;> cases hB : render.basic <;>
    simp [reportFailureTrace, generateBasicReportModel, hB, Except.isOk, Except.toBool]

theorem reportFailureTrace_terminal (b : Bool) (render : RenderOracle)
    (res : ScanResultR) :
    (reportFailureTrace b render res).status = ScanStatus.completed
      ∨ (reportFailureTrace b render res).status = ScanStatus.failed := by
  cases b <;> cases hB : render.basic <;>
    simp [reportFailureTrace, generateBasicReportModel, hB]

theorem reportFailureTrace_fullSucceeded (b : Bool) (render : RenderOracle)
    (res : ScanResultR) : (reportFailureTrace b render res).fullSucceeded = false := by
  cases b <;> cases hB : render.basic <;>
    simp [reportFailureTrace, generateBasicReportModel, hB]

theorem reportFailureTrace_resultsUsed (b : Bool) (render : RenderOracle)
    (res : ScanResultR) : (reportFailureTrace b render res).resultsUsed = res := by
  cases b <;> cases hB : render.basic <;>
    simp [reportFailureTrace, generateBasicReportModel, hB]

theorem hostPhase_blocked (dns : DnsOracle) (u : UrlRec) (b : String)
    (hb : b ∈ blockedDomains)
    (hinc : jsIncludes (jsToLower u.hostname) b = true) :
    (hostPhase dns u).isOk = false := by
  unfold hostPhase
  split
  · rfl
  split
  · rfl
  split
  · rfl
  split
  · rfl
  split
  · rfl
  split
  · rfl
  split
  · rfl
  exact absurd (List.any_eq_true.mpr ⟨b, hb, hinc⟩) (by assumption)

theorem hostPhase_private_resolved (dns : DnsOracle) (u : UrlRec)
    (ip : String) (ips : List String)
    (hdns : dns (jsToLower u.hostname) = some ips) (hmem : ip ∈ ips)
    (hpriv : isPrivateIP ip = true) :
    (hostPhase dns u).isOk = false := by
  unfold hostPhase
  split
  · rfl
  split
  · rfl
  split
  · rfl
  split
  · rfl
  rw [hdns]
  have hany : ips.any isPrivateIP = true := List.any_eq_true.mpr ⟨ip, hmem, hpriv⟩
  simp only [hany, if_true]
  rfl

/-! ## Claim theorems -/

/-- C1: the code evaluated at the failing input of Scenario C.  When every
fetch attempt for `https://example.com` times out, `scanWebsite` throws and
the orchestrator does build the synthetic error result — but `generateReport`
resolves with `undefined` on it (the bare `return;` at scanner.ts line 962
skips `doc.end()` and the path), `path.basename(undefined)` throws, the
target is not a test page, and the Scan ends `failed` even though both PDF
renderers are healthy.  The claimed `completed` status is not reached. -/
theorem c1_external_load_failure_marks_scan_failed :
    (scanWebsiteModel effTimeoutAll "https://example.com").isOk = false
    ∧ (processScanModel "https://example.com"
        (scanWebsiteModel effTimeoutAll "https://example.com")
        renderHealthy nowStr).resultsUsed
      = syntheticErrorResults "https://example.com" nowStr
          "Accessibility scan failed: Failed to fetch https://example.com after 5 attempts: network timeout at example.com"
    ∧ (processScanModel "https://example.com"
        (scanWebsiteModel effTimeoutAll "https://example.com")
        renderHealthy nowStr).resultsUsed.violations = []
    ∧ (processScanModel "https://example.com"
        (scanWebsiteModel effTimeoutAll "https://example.com")
        renderHealthy nowStr).resultsUsed.error.isSome = true
    ∧ renderHealthy.full.isOk = true
    ∧ renderHealthy.basic.isOk = true
    ∧ (processScanModel "https://example.com"
        (scanWebsiteModel effTimeoutAll "https://example.com")
        renderHealthy nowStr).status = ScanStatus.failed :=
  ⟨rfl, rfl, rfl, rfl, rfl, rfl, rfl⟩

/-- C2: `sanitizeTarget` accepts a public-looking hostname that DNS-resolves
to the multicast address `239.1.2.3`.  The source's multicast pattern is
`^224\.` (first octet 224 only) although its own comment announces
`224.0.0.0/4`, so addresses 225.0.0.0-239.255.255.255 slip through
`isPrivateIP` and the claimed `DisallowedTarget` rejection never happens. -/
theorem c2_sanitizer_accepts_multicast_resolved_host :
    dnsMulticast "public-site.com" = some ["239.1.2.3"]
    ∧ isMulticastIPv4 "239.1.2.3" = true
    ∧ isPrivateIP "239.1.2.3" = false
    ∧ (sanitizeTarget dnsMulticast "https://public-site.com").isOk = true :=
  ⟨rfl, rfl, rfl, rfl⟩

/-- C3 (amended): the free-scan endpoint — the one route that invokes the
Sanitizer — rejects `https://10.0.0.5` with the private-IP error before any
page load is attempted, for every DNS oracle (the literal-IP check precedes
the DNS lookup). -/
theorem c3_free_scan_rejects_private_ip_before_load (dns : DnsOracle) :
    freeScanHandlerModel dns "https://10.0.0.5"
      = (Except.error "Private IP addresses are not allowed", false) := rfl

/-- C3 counterexample: the authenticated `POST /api/scans` route never calls
the Sanitizer — `scanWebsite("https://10.0.0.5")` runs, its outcome depends
on what the private host answers (so a page load is attempted), and with an
answering host the scan completes instead of being rejected. -/
theorem c3_authed_route_scans_private_ip :
    (scansRouteBackground effPrivOk renderHealthy nowStr "https://10.0.0.5").status
      = ScanStatus.completed
    ∧ (scanWebsiteModel effPrivOk "https://10.0.0.5").isOk = true
    ∧ (scanWebsiteModel effPrivTimeout "https://10.0.0.5").isOk = false :=
  ⟨rfl, rfl, rfl⟩

/-- C4 (amended): when full report generation fails, the basic-report
fallback is attempted exactly for test-page scans, and the scan ends
`failed` precisely unless a test-page basic report succeeded — a real
external site transitions directly to `failed` without the fallback. -/
theorem c4_basic_fallback_only_for_test_pages
    (url : String) (so : Except String ScanResultR) (render : RenderOracle)
    (now : String)
    (h : (processScanModel url so render now).fullSucceeded = false) :
    (processScanModel url so render now).basicAttempted = isTestUrl url
    ∧ ((processScanModel url so render now).status = ScanStatus.failed
        ↔ (isTestUrl url = true → render.basic.isOk = false)) := by
  unfold processScanModel at h ⊢
  cases hG : generateReportModel render url (resultsFor url now so) with
  | ok o =>
    rw [hG] at h
    cases o with
    | none =>
      exact ⟨reportFailureTrace_basicAttempted _ _ _, reportFailureTrace_status _ _ _⟩
    | some p =>
      simp [afterReport] at h
  | error e =>
    exact ⟨reportFailureTrace_basicAttempted _ _ _, reportFailureTrace_status _ _ _⟩

/-- C4 witness: a non-test scan whose full render fails and whose basic
renderer is healthy. -/
theorem c4_basic_fallback_only_for_test_pages_witness :
    (processScanModel "https://site-a.example" (Except.ok plainResults)
        renderFullFail nowStr).fullSucceeded = false
    ∧ ((processScanModel "https://site-a.example" (Except.ok plainResults)
          renderFullFail nowStr).basicAttempted = isTestUrl "https://site-a.example"
      ∧ ((processScanModel "https://site-a.example" (Except.ok plainResults)
            renderFullFail nowStr).status = ScanStatus.failed
          ↔ (isTestUrl "https://site-a.example" = true
              → renderFullFail.basic.isOk = false))) :=
  ⟨rfl, c4_basic_fallback_only_for_test_pages _ _ _ _ rfl⟩

/-- C4 counterexample: a real-site scan whose full render throws ends
`failed` without the basic fallback ever being attempted, although the basic
renderer would have succeeded. -/
theorem c4_nontest_render_failure_skips_basic_fallback :
    (processScanModel "https://site-a.example" (Except.ok plainResults)
        renderFullFail nowStr).status = ScanStatus.failed
    ∧ (processScanModel "https://site-a.example" (Except.ok plainResults)
        renderFullFail nowStr).basicAttempted = false
    ∧ renderFullFail.basic.isOk = true :=
  ⟨rfl, rfl, rfl⟩

/-- C5 (amended): the free/preview scanner's output violations are always
sorted with impact severity non-increasing (critical, serious, moderate,
minor, then unknown) — they are the 2-element prefix of the impact-sorted
engine results; the main scanner's output keeps the engine order. -/
theorem c5_free_scan_violations_sorted (eff : FreeEffects) (url : String) :
    sortedByImpactB (scanSinglePageForFreeModel eff url).violations = true := by
  unfold scanSinglePageForFreeModel
  cases hP : eff.pipeline with
  | error m => rfl
  | ok vs =>
    cases hC : eff.closeFails with
    | some m => rfl
    | none =>
      apply sortedByImpactB_of_pairwise
      exact (sortViolationsByImpact_pairwise vs).sublist (List.take_sublist _ _)

/-- C5 counterexample: the main scanner (`scanWebsite`) returns the rule
engine's violations unsorted — a minor-impact violation delivered first
stays ahead of a critical one. -/
theorem c5_scanner_output_not_sorted :
    ((scanWebsiteModel effUnsorted "https://site-b.example").toOption.map
        (fun r => r.violations))
      = some [vMinorFirst, vCriticalSecond]
    ∧ sortedByImpactB [vMinorFirst, vCriticalSecond] = false :=
  ⟨rfl, rfl⟩

/-- C6 (amended): evidence capture never raises and returns one
`EvidenceShot` per selected violation whose first node carries a selector
(each with `b64` either an image or explicitly absent, per-violation
failures caught locally), so its length is the count of selector-carrying
selected violations — at most, but not always exactly,
`min(limit, violations.length)`. -/
theorem c6_capture_count_bounded (attempt : ShotOracle) (vs : List Violation) :
    (captureShotsForFree attempt (vs.take 2)).length
      = (vs.take 2).countP (fun v => (firstSelector v).isSome)
    ∧ (captureShotsForFree attempt (vs.take 2)).length ≤ min 2 vs.length := by
  refine ⟨captureShotsForFree_length attempt _, ?_⟩
  rw [captureShotsForFree_length attempt _]
  calc (vs.take 2).countP (fun v => (firstSelector v).isSome)
      ≤ (vs.take 2).length := List.countP_le_length _
    _ = min 2 vs.length := List.length_take _ _

/-- C6 counterexample: one violation with no resolvable selector yields zero
shots, not the claimed `min(limit, violations.length) = 1` entries with
`image` explicitly absent — the selectorless violation is skipped entirely. -/
theorem c6_capture_skips_selectorless_violation :
    (scanSinglePageForFreeModel effFreeNoSelector "https://c6.example").violations.length = 1
    ∧ (scanSinglePageForFreeModel effFreeNoSelector "https://c6.example").shots = []
    ∧ (scanSinglePageForFreeModel effFreeNoSelector "https://c6.example").shots.length
      ≠ min 2 (scanSinglePageForFreeModel effFreeNoSelector "https://c6.example").violations.length :=
  ⟨rfl, rfl, by decide⟩

/-- C7 (amended): sentinel fixture inputs are selected by exact string
equality, and when the fixture scan throws the orchestrator substitutes the
canned minimal result (representative violations and passes); such a scan
ends `completed` exactly when the full report or the basic fallback renders
— but the load itself can fail (see the counterexample), so "never ends
failed" holds only up to report rendering. -/
theorem c7_fixture_substitution
    (url msg : String) (render : RenderOracle) (now : String)
    (h : isTestUrl url = true) :
    (processScanModel url (Except.error msg) render now).resultsUsed = cannedTestResults
    ∧ ((processScanModel url (Except.error msg) render now).status = ScanStatus.completed
        ↔ (render.full.isOk = true ∨ render.basic.isOk = true)) := by
  have hres : resultsFor url now (Except.error msg) = cannedTestResults := by
    simp [resultsFor, h]
  have hce : cannedTestResults.error = none := rfl
  unfold processScanModel
  rw [hres, h]
  cases hF : render.full with
  | ok p =>
    simp [generateReportModel, hce, hF, afterReport, Except.isOk, Except.toBool]
  | error e =>
    cases hB : render.basic with
    | ok q =>
      simp [generateReportModel, hce, hF, hB, afterReport,
            reportFailureTrace, generateBasicReportModel, Except.isOk, Except.toBool]
    | error f =>
      simp [generateReportModel, hce, hF, hB, afterReport,
            reportFailureTrace, generateBasicReportModel, Except.isOk, Except.toBool]

/-- C7 witness: the `test` fixture with a crashed full renderer and a
healthy basic renderer still completes on the canned results. -/
theorem c7_fixture_substitution_witness :
    isTestUrl "test" = true
    ∧ ((processScanModel "test"
          (Except.error "Test page scan failed: ENOENT: no such file or directory, open server/test-pages/sample.html")
          renderBasicOnly nowStr).resultsUsed = cannedTestResults
      ∧ ((processScanModel "test"
            (Except.error "Test page scan failed: ENOENT: no such file or directory, open server/test-pages/sample.html")
            renderBasicOnly nowStr).status = ScanStatus.completed
          ↔ (renderBasicOnly.full.isOk = true ∨ renderBasicOnly.basic.isOk = true))) :=
  ⟨rfl, c7_fixture_substitution _ _ _ _ rfl⟩

/-- C7 counterexample: the fixture load for the sentinel `test` fails even
with every oracle healthy, because `scanTestPage` resolves
`/test-pages/sample.html` and no `sample.html` exists among the bundled test
pages — refuting "load never fails" for sentinel inputs. -/
theorem c7_fixture_load_fails_for_missing_sample :
    isTestUrl "test" = true
    ∧ scanWebsiteModel effFixture "test"
      = Except.error "Test page scan failed: ENOENT: no such file or directory, open server/test-pages/sample.html"
    ∧ (scanWebsiteModel effFixture "test").isOk = false :=
  ⟨rfl, rfl, rfl⟩

/-- C8 (amended): the script/iframe/link stripping runs only when the
fetched markup contains a literal `<script` or `<iframe` token — otherwise
the body reaches DOM construction unmodified — while scripts never execute
in any case because both JSDOM constructions use `runScripts:
"outside-only"`. -/
theorem c8_sanitization_conditional_scripts_disabled
    (url body : String) (h : appliesSanitization body = false) :
    processedHtml body = body
    ∧ (scanDomOptions url).runScripts = RunScriptsOpt.outsideOnly
    ∧ (fallbackDomOptions url).runScripts = RunScriptsOpt.outsideOnly := by
  refine ⟨?_, rfl, rfl⟩
  simp [processedHtml, h]

/-- C8 witness: a plain page without scripts passes through unchanged and is
parsed with scripts disabled. -/
theorem c8_sanitization_conditional_witness :
    appliesSanitization plainBody = false
    ∧ (processedHtml plainBody = plainBody
      ∧ (scanDomOptions "https://site-c.example").runScripts = RunScriptsOpt.outsideOnly
      ∧ (fallbackDomOptions "https://site-c.example").runScripts = RunScriptsOpt.outsideOnly) :=
  ⟨rfl, c8_sanitization_conditional_scripts_disabled _ _ rfl⟩

/-- C8 counterexample: a body carrying a stylesheet `<link>` but no script
or iframe skips sanitization entirely, so the `<link>` tag survives into the
markup handed to the DOM constructor — although the stripper would have
removed it had it run. -/
theorem c8_link_tags_survive_without_scripts :
    appliesSanitization linkOnlyBody = false
    ∧ processedHtml linkOnlyBody = linkOnlyBody
    ∧ jsIncludes (domInputHtml linkOnlyBody) "<link" = true
    ∧ stripScriptIframeLink linkOnlyBody ≠ linkOnlyBody :=
  ⟨rfl, rfl, rfl, by decide⟩

/-- C9: both background-processing variants always leave the Scan in a
terminal status — `completed` or `failed`, never `pending` — for every scan
outcome and every renderer behavior (covering the success, load-fails,
render-fails and everything-fails cases at once). -/
theorem c9_background_processing_terminal
    (url : String) (so : Except String ScanResultR) (render : RenderOracle)
    (now : String) :
    ((processScanModel url so render now).status = ScanStatus.completed
      ∨ (processScanModel url so render now).status = ScanStatus.failed)
    ∧ (processScanStatusV0 url so render = ScanStatus.completed
      ∨ processScanStatusV0 url so render = ScanStatus.failed) := by
  constructor
  · unfold processScanModel
    cases hG : generateReportModel render url (resultsFor url now so) with
    | ok o =>
      cases o with
      | some p => exact Or.inl rfl
      | none => exact reportFailureTrace_terminal _ _ _
    | error e => exact reportFailureTrace_terminal _ _ _
  · cases so with
    | error e => exact Or.inr rfl
    | ok r =>
      cases hG : generateReportModel render url r with
      | ok o =>
        cases o with
        | some p => exact Or.inl (by simp [processScanStatusV0, hG])
        | none => exact Or.inr (by simp [processScanStatusV0, hG])
      | error e => exact Or.inr (by simp [processScanStatusV0, hG])

/-- C10: `sanitizeTarget` rejects every input whose parsed hostname contains
one of the blocked substrings (`internal`, `local`, `localhost`, `intranet`,
`corp`, `home`) anywhere within it, under every DNS oracle — public sites
such as `homedepot.com` included. -/
theorem c10_blocked_keyword_hosts_rejected
    (dns : DnsOracle) (input : String) (u : UrlRec) (b : String)
    (hparse : parseURL (normalizeInput input) = some u)
    (hb : b ∈ blockedDomains)
    (hinc : jsIncludes (jsToLower u.hostname) b = true) :
    (sanitizeTarget dns input).isOk = false := by
  unfold sanitizeTarget
  by_cases hemp : input = ""
  · subst hemp
    rfl
  · simp only [if_neg hemp]
    rw [hparse]
    exact hostPhase_blocked dns u b hb hinc

/-- C10 witness: `homedepot.com` parses to a hostname containing `home` and
is rejected although it resolves publicly. -/
theorem c10_blocked_keyword_hosts_rejected_witness :
    (parseURL (normalizeInput "homedepot.com") = some homeDepotU
    ∧ "home" ∈ blockedDomains
    ∧ jsIncludes (jsToLower homeDepotU.hostname) "home" = true)
    ∧ (sanitizeTarget dnsPublic "homedepot.com").isOk = false :=
  ⟨⟨rfl, by decide, rfl⟩,
   c10_blocked_keyword_hosts_rejected dnsPublic "homedepot.com" homeDepotU "home"
     rfl (by decide) rfl⟩

end AccessAudit
